import Mathlib

set_option autoImplicit false

/-!
Shallow embedding of the PRD generation pipeline in `rag_system.py`
(`input_analyzer_agent`, `prd_generator_agent`, `clarification_agent`,
`determine_next_step`, `create_prd_rag_graph`, `process_user_input_for_prd`),
together with theorems settling the specification claims about it.

Modelling conventions:
- a value produced by `json.loads` is a `Json`;
- a Python `dict` is an association list; lookup returns the (unique) match,
  assignment replaces the match in place, `setdefault` appends at the end
  when the key is absent (Python dicts preserve insertion order);
- each LLM completion call site is an injected oracle keyed by exactly the
  data the source builds its prompt from; `.error e` stands for any exception
  inside the `try` block (API failure, timeout, or `json.loads` failure on the
  response text) with `str(e) = e`, and `.ok j` for a response whose text
  parses to the JSON value `j`;
- an exception that no `except` catches is an `Except.error` that propagates
  out of the enclosing function.
-/

namespace RagSystem

/-- A JSON value as returned by `json.loads`.  Numbers are modelled as
integers (no claim depends on float behaviour). -/
inductive Json where
  | null
  | bool (b : Bool)
  | num (n : Int)
  | str (s : String)
  | arr (elems : List Json)
  | obj (entries : List (String × Json))

/-- Python truthiness (`if prd_content[field]`): `None`, `False`, `0`, `""`,
`[]`, `{}` are falsy, everything else truthy. -/
def pyTruthy : Json → Bool
  | .null => false
  | .bool b => b
  | .num n => n != 0
  | .str s => s != ""
  | .arr elems => !elems.isEmpty
  | .obj entries => !entries.isEmpty

/-- `isinstance(v, list)`. -/
def Json.isArr : Json → Bool
  | .arr _ => true
  | _ => false

/-- A single-quote character, written via its code point. -/
def sq : String := String.singleton (Char.ofNat 39)

mutual

/-- Python `repr` of a parsed JSON value (string escaping inside nested
strings is not reproduced; no claim depends on it). -/
def pyRepr : Json → String
  | .null => "None"
  | .bool true => "True"
  | .bool false => "False"
  | .num n => toString n
  | .str s => sq ++ s ++ sq
  | .arr elems => "[" ++ String.intercalate ", " (pyReprList elems) ++ "]"
  | .obj entries => "\x7b" ++ String.intercalate ", " (pyReprObj entries) ++ "\x7d"

def pyReprList : List Json → List String
  | [] => []
  | v :: rest => pyRepr v :: pyReprList rest

def pyReprObj : List (String × Json) → List String
  | [] => []
  | (k, v) :: rest => (sq ++ k ++ sq ++ ": " ++ pyRepr v) :: pyReprObj rest

end

/-- Python `str` of a parsed JSON value. -/
def pyStr : Json → String
  | .str s => s
  | v => pyRepr v

/-- Python type name of a parsed JSON value, as it appears in error
messages. -/
def pyTypeName : Json → String
  | .null => "NoneType"
  | .bool _ => "bool"
  | .num _ => "int"
  | .str _ => "str"
  | .arr _ => "list"
  | .obj _ => "dict"

/-- Dict lookup `d[k]` (first match; keys of a `json.loads` result are
unique). -/
def getVal : List (String × Json) → String → Option Json
  | [], _ => none
  | (k, v) :: rest, key => if k = key then some v else getVal rest key

/-- Dict assignment `d[k] = v`: replace the match in place, append when the
key is absent. -/
def setKey : List (String × Json) → String → Json → List (String × Json)
  | [], key, v => [(key, v)]
  | (k, w) :: rest, key, v =>
      if k = key then (key, v) :: rest else (k, w) :: setKey rest key v

/-- `d.setdefault(k, dflt)`: no-op when the key is present, append at the
end otherwise. -/
def setdefault (entries : List (String × Json)) (key : String) (dflt : Json) :
    List (String × Json) :=
  if (getVal entries key).isSome then entries else entries ++ [(key, dflt)]

/-- A retrieved context document (`page_content` plus its source id). -/
structure Document where
  page_content : String
  source : String

/-- The `PRDAgentState` TypedDict threaded through the graph.
`conversation_history` is a list of role/text dicts. -/
structure PRDAgentState where
  user_input : String
  conversation_history : List (List (String × String))
  retrieved_context : List Document
  analysis_result : Json
  prd_content : Json
  clarifying_questions : Json
  processing_stage : String
  error_message : String

/-- The two injected collaborators (retriever and completion client), one
oracle per call site, each keyed by exactly the data the source builds the
corresponding prompt from:
- `retrieve`: `retriever.invoke(context_query)`;
- `analysisComplete`: the analysis completion, whose prompt is a function of
  `user_input` alone;
- `prdComplete`: the PRD completion, whose prompt is a function of
  `analysis_result` and the truncated context text;
- `questionsComplete`: the clarifying-questions completion, whose prompt is a
  function of `user_input` and `analysis_result`. -/
structure Services where
  retrieve : String → Except String (List Document)
  analysisComplete : String → Except String Json
  prdComplete : Json → String → Except String Json
  questionsComplete : String → Json → Except String Json

/-- The retrieval query built in `input_analyzer_agent`. -/
def context_query (user_input : String) : String :=
  "product requirements examples features user stories " ++ user_input

/-- `input_analyzer_agent`: retrieval runs outside the `try` block, so a
retriever failure propagates as an uncaught exception; the completion call
and the JSON parse are inside it. -/
def input_analyzer_agent (svc : Services) (state : PRDAgentState) :
    Except String PRDAgentState :=
  match svc.retrieve (context_query state.user_input) with
  | .error e => .error e
  | .ok docs =>
      let state1 := { state with retrieved_context := docs }
      match svc.analysisComplete state1.user_input with
      | .ok parsed =>
          .ok { state1 with analysis_result := parsed, processing_stage := "analyzed" }
      | .error e =>
          .ok { state1 with error_message := "Analysis failed: " ++ e,
                            processing_stage := "error" }

/-- The list-valued fields the repair loop iterates over, in source order. -/
def repairFields : List String := ["objectives", "features", "requirements", "userStories"]

/-- The canned default items substituted for an empty list field. -/
def fieldDefaults : String → List String
  | "objectives" =>
      ["Define clear business goals", "Identify target market", "Establish success metrics"]
  | "features" =>
      ["Core functionality", "User interface", "Data management", "User authentication"]
  | "requirements" =>
      ["Web-based application", "Mobile responsive design", "Secure data storage"]
  | "userStories" =>
      ["As a user, I want to access the application, so that I can use its features",
       "As a user, I want to save my data, so that I can access it later"]
  | _ => []

/-- `[str(v)] if v else []`, applied when a field value is not a list. -/
def coerceScalar (v : Json) : Json :=
  if pyTruthy v then Json.arr [Json.str (pyStr v)] else Json.arr []

/-- `len(v) == 0`.  At its use site in the repair loop the value is always a
list (a non-list was just coerced to one). -/
def isEmptyList : Json → Bool
  | .arr elems => elems.isEmpty
  | _ => false

/-- One iteration of the repair loop for a single field: coerce a non-list
value to a list, then substitute the canned defaults when the list is empty.
When called from `repairPrd` the field is always present (the `setdefault`
block ran), so the missing-key fallback value is unreachable. -/
def repairOne (entries : List (String × Json)) (field : String) :
    List (String × Json) :=
  let v0 := (getVal entries field).getD Json.null
  let entries1 :=
    if v0.isArr then entries else setKey entries field (coerceScalar v0)
  let v1 := (getVal entries1 field).getD Json.null
  if isEmptyList v1 then
    setKey entries1 field (Json.arr ((fieldDefaults field).map Json.str))
  else entries1

/-- The repair pass of `prd_generator_agent` (lines 166-188): `setdefault`
every required field, then the repair loop.  A non-dict parse raises
`AttributeError` at the first `setdefault`, caught by the enclosing
`except`. -/
def repairPrd (parsed : Json) : Except String Json :=
  match parsed with
  | .obj entries =>
      let e1 := setdefault entries "title" (.str "Product Requirements Document")
      let e2 := setdefault e1 "overview"
        (.str "Product overview will be generated from your input.")
      let e3 := setdefault e2 "objectives" (.arr [])
      let e4 := setdefault e3 "features" (.arr [])
      let e5 := setdefault e4 "requirements" (.arr [])
      let e6 := setdefault e5 "userStories" (.arr [])
      .ok (.obj (repairFields.foldl repairOne e6))
  | v =>
      .error (sq ++ pyTypeName v ++ sq ++ " object has no attribute " ++
        sq ++ "setdefault" ++ sq)

/-- `"\n\n".join([doc.page_content[:500] for doc in context_docs[:3]])`. -/
def mkContextText (docs : List Document) : String :=
  String.intercalate "\n\n" ((docs.take 3).map (fun d => d.page_content.take 500))

/-- `prd_generator_agent`: completion, parse and repair all inside the same
`try`; any failure sets the error stage. -/
def prd_generator_agent (svc : Services) (state : PRDAgentState) : PRDAgentState :=
  match svc.prdComplete state.analysis_result (mkContextText state.retrieved_context) with
  | .ok parsed =>
      match repairPrd parsed with
      | .ok prd => { state with prd_content := prd, processing_stage := "generated" }
      | .error e => { state with error_message := "PRD generation failed: " ++ e,
                                 processing_stage := "error" }
  | .error e => { state with error_message := "PRD generation failed: " ++ e,
                             processing_stage := "error" }

/-- The fixed fallback pair of clarifying questions. -/
def default_questions : List String :=
  ["Could you provide more details about your target users?",
   "What are the most important features for your users?"]

/-- `clarification_agent`: the parsed JSON value is stored unvalidated; any
failure falls back to the fixed pair.  The processing stage is not
touched. -/
def clarification_agent (svc : Services) (state : PRDAgentState) : PRDAgentState :=
  match svc.questionsComplete state.user_input state.analysis_result with
  | .ok parsed => { state with clarifying_questions := parsed }
  | .error _ =>
      { state with clarifying_questions := Json.arr (default_questions.map Json.str) }

/-- `determine_next_step`. -/
def determine_next_step (state : PRDAgentState) : String :=
  if state.processing_stage == "analyzed" then "generate_prd"
  else if state.processing_stage == "generated" then "generate_questions"
  else "end"

/-- Execution of the compiled graph from `create_prd_rag_graph`: entry point
`analyze_input`, conditional edges by `determine_next_step`, `END` after the
questions node. -/
def run_graph (svc : Services) (s0 : PRDAgentState) : Except String PRDAgentState :=
  match input_analyzer_agent svc s0 with
  | .error e => .error e
  | .ok s1 =>
      if determine_next_step s1 == "generate_prd" then
        let s2 := prd_generator_agent svc s1
        if determine_next_step s2 == "generate_questions" then
          .ok (clarification_agent svc s2)
        else .ok s2
      else .ok s1

/-- The result dictionary of `process_user_input_for_prd`. -/
structure Envelope where
  success : Bool
  prd_content : Json
  clarifying_questions : Json
  analysis : Json
  error_message : String
  processing_stage : String

/-- The initial state built by `process_user_input_for_prd`. -/
def initial_state (user_input : String)
    (history : List (List (String × String))) : PRDAgentState :=
  { user_input := user_input
    conversation_history := history
    retrieved_context := []
    analysis_result := .obj []
    prd_content := .obj []
    clarifying_questions := .arr []
    processing_stage := "starting"
    error_message := "" }

/-- The final dictionary assembled from the graph result. -/
def mkEnvelope (result : PRDAgentState) : Envelope :=
  { success := result.processing_stage != "error" && result.processing_stage != "starting"
    prd_content := result.prd_content
    clarifying_questions := result.clarifying_questions
    analysis := result.analysis_result
    error_message := result.error_message
    processing_stage := result.processing_stage }

/-- `process_user_input_for_prd(user_input, conversation_history=None)`:
the `None` default becomes the empty history; an uncaught exception from the
graph propagates to the caller. -/
def process_user_input_for_prd (svc : Services) (user_input : String)
    (conversation_history : Option (List (List (String × String)))) :
    Except String Envelope :=
  let history := conversation_history.getD []
  (run_graph svc (initial_state user_input history)).map mkEnvelope

/-- Entries of a JSON object (`[]` on non-objects). -/
def Json.objEntries : Json → List (String × Json)
  | .obj entries => entries
  | _ => []

/-- Length of a JSON array, `none` on non-arrays. -/
def jsonArrLen : Json → Option Nat
  | .arr elems => some elems.length
  | _ => none

/-- The per-field minimum cardinality stated by the specification
(`objectives`/`features`/`requirements` at least 3, `userStories` at
least 2). -/
def minCardinality : String → Nat
  | "objectives" => 3
  | "features" => 3
  | "requirements" => 3
  | "userStories" => 2
  | _ => 0

/-- The specification's stage order (`STARTING`, `CONTEXT_RETRIEVED`,
`ANALYZED`, `GENERATED`, `QUESTIONS_READY`), mapped onto the lower-case
stage strings of the source; anything else (including `"error"`) is ranked
past the end. -/
def stageRank : String → Nat
  | "starting" => 0
  | "context_retrieved" => 1
  | "analyzed" => 2
  | "generated" => 3
  | "questions_ready" => 4
  | _ => 5

/-! ### Dictionary lemmas -/

theorem getVal_append (l1 l2 : List (String × Json)) (key : String) :
    getVal (l1 ++ l2) key =
      match getVal l1 key with
      | some v => some v
      | none => getVal l2 key := by
  induction l1 with
  | nil => rfl
  | cons hd tl ih =>
      obtain ⟨k, v⟩ := hd
      by_cases hk : k = key <;> simp [getVal, hk, ih]

theorem getVal_setKey_self (l : List (String × Json)) (key : String) (v : Json) :
    getVal (setKey l key v) key = some v := by
  induction l with
  | nil => simp [setKey, getVal]
  | cons hd tl ih =>
      obtain ⟨k, w⟩ := hd
      by_cases hk : k = key <;> simp [setKey, getVal, hk, ih]

theorem getVal_setKey_ne (l : List (String × Json)) (key other : String) (v : Json)
    (h : key ≠ other) : getVal (setKey l key v) other = getVal l other := by
  induction l with
  | nil => simp [setKey, getVal, h]
  | cons hd tl ih =>
      obtain ⟨k, w⟩ := hd
      by_cases hk : k = key
      · subst hk; simp [setKey, getVal, h]
      · simp [setKey, getVal, hk, ih]

theorem setdefault_of_present (l : List (String × Json)) (key : String) (dflt : Json)
    (h : (getVal l key).isSome) : setdefault l key dflt = l := by
  simp [setdefault, h]

theorem getVal_setdefault_self (l : List (String × Json)) (key : String) (dflt : Json) :
    getVal (setdefault l key dflt) key = some ((getVal l key).getD dflt) := by
  unfold setdefault
  cases h : getVal l key with
  | some v => simp [h]
  | none => simp [h, getVal_append, getVal]

theorem getVal_setdefault_ne (l : List (String × Json)) (key other : String) (dflt : Json)
    (h : key ≠ other) : getVal (setdefault l key dflt) other = getVal l other := by
  unfold setdefault
  cases hh : (getVal l key).isSome with
  | true => simp
  | false =>
      simp only [hh, Bool.false_eq_true, if_false, getVal_append]
      cases hv : getVal l other <;> simp [getVal, h]

/-! ### Repair-loop lemmas -/

/-- The value a single repair iteration leaves in a field, as a function of
the value found there (`Json.null` standing for an absent field, which the
`setdefault` block rules out at the call site). -/
def repairedValue (field : String) (v : Json) : Json :=
  let v1 := if v.isArr then v else coerceScalar v
  if isEmptyList v1 then Json.arr ((fieldDefaults field).map Json.str) else v1

theorem getVal_repairOne_self (l : List (String × Json)) (field : String) :
    getVal (repairOne l field) field =
      some (repairedValue field ((getVal l field).getD Json.null)) := by
  unfold repairOne repairedValue
  cases hg : getVal l field with
  | none =>
      simp [hg, Json.isArr, coerceScalar, pyTruthy, isEmptyList,
        getVal_setKey_self]
  | some v =>
      cases v with
      | arr elems =>
          cases elems with
          | nil => simp [hg, Json.isArr, isEmptyList, getVal_setKey_self]
          | cons x xs => simp [hg, Json.isArr, isEmptyList]
      | null =>
          simp [hg, Json.isArr, coerceScalar, pyTruthy, isEmptyList,
            getVal_setKey_self]
      | bool b =>
          cases b <;>
            simp [hg, Json.isArr, coerceScalar, pyTruthy, isEmptyList,
              getVal_setKey_self]
      | num n =>
          by_cases hn : n = 0 <;>
            simp [hg, Json.isArr, coerceScalar, pyTruthy, isEmptyList, hn,
              getVal_setKey_self]
      | str s =>
          by_cases hs : s = "" <;>
            simp [hg, Json.isArr, coerceScalar, pyTruthy, isEmptyList, hs,
              getVal_setKey_self]
      | obj entries =>
          cases entries with
          | nil =>
              simp [hg, Json.isArr, coerceScalar, pyTruthy, isEmptyList,
                getVal_setKey_self]
          | cons e es =>
              simp [hg, Json.isArr, coerceScalar, pyTruthy, isEmptyList,
                getVal_setKey_self]

theorem getVal_repairOne_ne (l : List (String × Json)) (field other : String)
    (h : field ≠ other) : getVal (repairOne l field) other = getVal l other := by
  unfold repairOne
  cases hg : getVal l field with
  | none =>
      simp [hg, Json.isArr, coerceScalar, pyTruthy, isEmptyList,
        getVal_setKey_self, getVal_setKey_ne _ _ _ _ h]
  | some v =>
      cases v with
      | arr elems =>
          cases elems with
          | nil =>
              simp [hg, Json.isArr, isEmptyList,
                getVal_setKey_ne _ _ _ _ h]
          | cons x xs => simp [hg, Json.isArr, isEmptyList]
      | null =>
          simp [hg, Json.isArr, coerceScalar, pyTruthy, isEmptyList,
            getVal_setKey_self, getVal_setKey_ne _ _ _ _ h]
      | bool b =>
          cases b <;>
            simp [hg, Json.isArr, coerceScalar, pyTruthy, isEmptyList,
              getVal_setKey_self, getVal_setKey_ne _ _ _ _ h]
      | num n =>
          by_cases hn : n = 0 <;>
            simp [hg, Json.isArr, coerceScalar, pyTruthy, isEmptyList, hn,
              getVal_setKey_self, getVal_setKey_ne _ _ _ _ h]
      | str s =>
          by_cases hs : s = "" <;>
            simp [hg, Json.isArr, coerceScalar, pyTruthy, isEmptyList, hs,
              getVal_setKey_self, getVal_setKey_ne _ _ _ _ h]
      | obj entries =>
          cases entries with
          | nil =>
              simp [hg, Json.isArr, coerceScalar, pyTruthy, isEmptyList,
                getVal_setKey_self, getVal_setKey_ne _ _ _ _ h]
          | cons e es =>
              simp [hg, Json.isArr, coerceScalar, pyTruthy, isEmptyList,
                getVal_setKey_self, getVal_setKey_ne _ _ _ _ h]

theorem repairOne_of_nonempty (l : List (String × Json)) (field : String)
    (x : Json) (xs : List Json) (h : getVal l field = some (.arr (x :: xs))) :
    repairOne l field = l := by
  unfold repairOne
  simp [h, Json.isArr, isEmptyList]

theorem getVal_repairAll (e : List (String × Json)) (field : String)
    (hf : field ∈ repairFields) :
    getVal (repairFields.foldl repairOne e) field =
      some (repairedValue field ((getVal e field).getD Json.null)) := by
  simp only [repairFields, List.mem_cons, List.not_mem_nil, or_false] at hf
  simp only [repairFields, List.foldl]
  rcases hf with rfl | rfl | rfl | rfl
  · rw [getVal_repairOne_ne _ _ _ (by decide), getVal_repairOne_ne _ _ _ (by decide),
      getVal_repairOne_ne _ _ _ (by decide), getVal_repairOne_self]
  · rw [getVal_repairOne_ne _ _ _ (by decide), getVal_repairOne_ne _ _ _ (by decide),
      getVal_repairOne_self, getVal_repairOne_ne _ _ _ (by decide)]
  · rw [getVal_repairOne_ne _ _ _ (by decide), getVal_repairOne_self,
      getVal_repairOne_ne _ _ _ (by decide), getVal_repairOne_ne _ _ _ (by decide)]
  · rw [getVal_repairOne_self, getVal_repairOne_ne _ _ _ (by decide),
      getVal_repairOne_ne _ _ _ (by decide), getVal_repairOne_ne _ _ _ (by decide)]

theorem getVal_repairPrd (entries : List (String × Json)) (field : String)
    (hf : field ∈ repairFields) :
    (repairPrd (.obj entries)).map (fun d => getVal d.objEntries field) =
      .ok (some (repairedValue field ((getVal entries field).getD (Json.arr [])))) := by
  have hf' := hf
  simp only [repairFields, List.mem_cons, List.not_mem_nil, or_false] at hf'
  simp only [repairPrd, Except.map, Json.objEntries]
  rw [getVal_repairAll _ _ hf]
  rcases hf' with rfl | rfl | rfl | rfl
  · rw [getVal_setdefault_ne _ _ _ _ (by decide), getVal_setdefault_ne _ _ _ _ (by decide),
      getVal_setdefault_ne _ _ _ _ (by decide), getVal_setdefault_self,
      getVal_setdefault_ne _ _ _ _ (by decide), getVal_setdefault_ne _ _ _ _ (by decide)]
    simp
  · rw [getVal_setdefault_ne _ _ _ _ (by decide), getVal_setdefault_ne _ _ _ _ (by decide),
      getVal_setdefault_self, getVal_setdefault_ne _ _ _ _ (by decide),
      getVal_setdefault_ne _ _ _ _ (by decide), getVal_setdefault_ne _ _ _ _ (by decide)]
    simp
  · rw [getVal_setdefault_ne _ _ _ _ (by decide), getVal_setdefault_self,
      getVal_setdefault_ne _ _ _ _ (by decide), getVal_setdefault_ne _ _ _ _ (by decide),
      getVal_setdefault_ne _ _ _ _ (by decide), getVal_setdefault_ne _ _ _ _ (by decide)]
    simp
  · rw [getVal_setdefault_self, getVal_setdefault_ne _ _ _ _ (by decide),
      getVal_setdefault_ne _ _ _ _ (by decide), getVal_setdefault_ne _ _ _ _ (by decide),
      getVal_setdefault_ne _ _ _ _ (by decide), getVal_setdefault_ne _ _ _ _ (by decide)]
    simp

/-! ### A closed-form evaluation of the whole pipeline -/

/-- The value `clarification_agent` stores, as a function of the
clarification oracle outcome. -/
def questionsValue (svc : Services) (ui : String) (analysis : Json) : Json :=
  match svc.questionsComplete ui analysis with
  | .ok parsed => parsed
  | .error _ => Json.arr (default_questions.map Json.str)

/-- Closed form of `process_user_input_for_prd`, by case analysis on the
three oracle outcomes; proved equal to the embedding below.  Note that the
conversation history does not occur. -/
def pipelineResult (svc : Services) (ui : String) : Except String Envelope :=
  match svc.retrieve (context_query ui) with
  | .error e => .error e
  | .ok docs =>
      match svc.analysisComplete ui with
      | .error e =>
          .ok ⟨false, .obj [], .arr [], .obj [], "Analysis failed: " ++ e, "error"⟩
      | .ok analysis =>
          match (svc.prdComplete analysis (mkContextText docs)).bind repairPrd with
          | .error e =>
              .ok ⟨false, .obj [], .arr [], analysis,
                   "PRD generation failed: " ++ e, "error"⟩
          | .ok prd =>
              .ok ⟨true, prd, questionsValue svc ui analysis, analysis, "", "generated"⟩

theorem prd_generator_agent_spec (svc : Services) (s : PRDAgentState) :
    prd_generator_agent svc s =
      match (svc.prdComplete s.analysis_result (mkContextText s.retrieved_context)).bind
          repairPrd with
      | .ok prd => { s with prd_content := prd, processing_stage := "generated" }
      | .error e => { s with error_message := "PRD generation failed: " ++ e,
                             processing_stage := "error" } := by
  unfold prd_generator_agent
  cases hp : svc.prdComplete s.analysis_result (mkContextText s.retrieved_context) with
  | error e => simp [Except.bind]
  | ok parsed => cases hrp : repairPrd parsed <;> simp [Except.bind, hrp]

theorem process_eq_pipelineResult (svc : Services) (ui : String)
    (hist : Option (List (List (String × String)))) :
    process_user_input_for_prd svc ui hist = pipelineResult svc ui := by
  unfold process_user_input_for_prd pipelineResult run_graph input_analyzer_agent
    initial_state
  cases hr : svc.retrieve (context_query ui) with
  | error e => simp [hr, Except.map]
  | ok docs =>
      simp only [hr]
      cases ha : svc.analysisComplete ui with
      | error e =>
          simp [ha, determine_next_step, mkEnvelope, Except.map]
      | ok analysis =>
          simp only [ha, determine_next_step, prd_generator_agent_spec]
          cases hb : (svc.prdComplete analysis (mkContextText docs)).bind repairPrd with
          | error e => simp [hb, mkEnvelope, Except.map]
          | ok prd =>
              unfold clarification_agent questionsValue
              cases hq : svc.questionsComplete ui analysis with
              | error e => simp [hb, hq, mkEnvelope, Except.map]
              | ok qs => simp [hb, hq, mkEnvelope, Except.map]

theorem append_left_ne_empty (a b : String) (h : 0 < a.length) : a ++ b ≠ "" := by
  intro hab
  have hl := congrArg String.length hab
  rw [String.length_append] at hl
  have h0 : ("" : String).length = 0 := rfl
  rw [h0] at hl
  omega

/-- Every envelope the pipeline can return is one of: analysis failure,
generation failure, or full success. -/
theorem envelope_cases (svc : Services) (ui : String)
    (hist : Option (List (List (String × String)))) (env : Envelope)
    (h : process_user_input_for_prd svc ui hist = .ok env) :
    (∃ e, env = ⟨false, .obj [], .arr [], .obj [], "Analysis failed: " ++ e, "error"⟩) ∨
    (∃ analysis e,
        env = ⟨false, .obj [], .arr [], analysis, "PRD generation failed: " ++ e, "error"⟩) ∨
    (∃ prd analysis, env = ⟨true, prd, questionsValue svc ui analysis, analysis, "", "generated"⟩) := by
  rw [process_eq_pipelineResult] at h
  unfold pipelineResult at h
  split at h
  · simp at h
  · split at h
    · exact Or.inl ⟨_, (Except.ok.inj h).symm⟩
    · split at h
      · exact Or.inr (Or.inl ⟨_, _, (Except.ok.inj h).symm⟩)
      · exact Or.inr (Or.inr ⟨_, _, (Except.ok.inj h).symm⟩)

theorem fieldDefaults_sound (field : String) (hf : field ∈ repairFields) :
    fieldDefaults field ≠ [] ∧ minCardinality field ≤ (fieldDefaults field).length := by
  simp only [repairFields, List.mem_cons, List.not_mem_nil, or_false] at hf
  rcases hf with rfl | rfl | rfl | rfl <;> exact ⟨by decide, by decide⟩

/-- Shape of the value one repair iteration leaves in a field: always a
non-empty list; the canned defaults (meeting the per-field minimum) exactly
when the incoming value was the empty list; the incoming list itself when it
was non-empty. -/
theorem repairedValue_spec (field : String) (hf : field ∈ repairFields) (v : Json) :
    ∃ elems, repairedValue field v = .arr elems ∧ elems ≠ [] ∧
      (v = .arr [] → minCardinality field ≤ elems.length) ∧
      (∀ y ys, v = .arr (y :: ys) → elems = y :: ys) := by
  obtain ⟨hne, hmin⟩ := fieldDefaults_sound field hf
  have hne' : (fieldDefaults field).map Json.str ≠ [] := by
    simpa using hne
  have hlen : minCardinality field ≤ ((fieldDefaults field).map Json.str).length := by
    simpa using hmin
  by_cases harr : v.isArr
  · obtain ⟨elems, rfl⟩ : ∃ elems, v = .arr elems := by
      cases v with
      | arr elems => exact ⟨elems, rfl⟩
      | null => exact absurd harr (by simp [Json.isArr])
      | bool b => exact absurd harr (by simp [Json.isArr])
      | num n => exact absurd harr (by simp [Json.isArr])
      | str s => exact absurd harr (by simp [Json.isArr])
      | obj entries => exact absurd harr (by simp [Json.isArr])
    cases elems with
    | nil =>
        refine ⟨(fieldDefaults field).map Json.str, ?_, hne', fun _ => hlen, ?_⟩
        · simp [repairedValue, Json.isArr, isEmptyList]
        · intro y ys hcontra
          exact absurd (Json.arr.inj hcontra) (by simp)
    | cons x xs =>
        refine ⟨x :: xs, ?_, (by simp), ?_, ?_⟩
        · simp [repairedValue, Json.isArr, isEmptyList]
        · intro hcontra
          exact absurd (Json.arr.inj hcontra) (by simp)
        · intro y ys h
          exact Json.arr.inj h
  · have hv : v.isArr = false := by simpa using harr
    have hno : ∀ elems, v ≠ .arr elems := by
      intro elems hcontra
      rw [hcontra] at hv
      simp [Json.isArr] at hv
    by_cases ht : pyTruthy v
    · refine ⟨[Json.str (pyStr v)], ?_, (by simp),
        (fun hcontra => absurd hcontra (hno [])),
        (fun y ys hcontra => absurd hcontra (hno (y :: ys)))⟩
      simp [repairedValue, hv, coerceScalar, ht, isEmptyList]
    · have ht' : pyTruthy v = false := by simpa using ht
      refine ⟨(fieldDefaults field).map Json.str, ?_, hne',
        (fun hcontra => absurd hcontra (hno [])),
        (fun y ys hcontra => absurd hcontra (hno (y :: ys)))⟩
      simp [repairedValue, hv, coerceScalar, ht', isEmptyList]

/-! ### Concrete fixtures for witnesses and counterexamples -/

/-- Two retrieved snippets, as in the specification scenario. -/
def docsW : List Document :=
  [⟨"Product Requirements Document Template", "artifacts/prd_gen.md"⟩,
   ⟨"CREATE TABLE conversations", "artifacts/schema.sql"⟩]

/-- A parsed analysis with `features = ["sync", "tags"]`. -/
def intentW : Json :=
  .obj [("product_type", .str "productivity app"), ("purpose", .str "note taking"),
        ("target_users", .arr [.str "students"]),
        ("features", .arr [.str "sync", .str "tags"]),
        ("technical_requirements", .arr []), ("business_objectives", .arr [])]

/-- A parsed PRD whose `requirements` list has exactly one item; every other
list meets its minimum. -/
def prdEntriesOneReq : List (String × Json) :=
  [("title", .str "Simple Note-Taking App"),
   ("overview", .str "A lightweight app for capturing notes."),
   ("objectives", .arr [.str "Grow adoption", .str "Retain users", .str "Monetize"]),
   ("features", .arr [.str "Sync: background sync", .str "Tags: organization",
                      .str "Search: full text"]),
   ("requirements", .arr [.str "Web-based client"]),
   ("userStories",
    .arr [.str "As a user, I want to write notes, so that I remember things",
          .str "As a user, I want tags, so that I can organize them"])]

/-- A parsed PRD meeting every field-presence, list-type and
minimum-cardinality invariant. -/
def fullEntries : List (String × Json) :=
  [("title", .str "Organizer"), ("overview", .str "Plans tasks."),
   ("objectives", .arr [.str "O1", .str "O2", .str "O3"]),
   ("features", .arr [.str "F1", .str "F2", .str "F3"]),
   ("requirements", .arr [.str "R1", .str "R2", .str "R3"]),
   ("userStories", .arr [.str "U1", .str "U2"])]

/-- Services realising the specification scenario: retrieval returns two
snippets, extraction succeeds, synthesis returns one `requirements` item,
clarification returns two questions. -/
def svcScenario : Services :=
  { retrieve := fun _ => .ok docsW
    analysisComplete := fun _ => .ok intentW
    prdComplete := fun _ _ => .ok (.obj prdEntriesOneReq)
    questionsComplete := fun _ _ =>
      .ok (.arr [.str "Which platforms should be supported?",
                 .str "Should notes sync offline?"]) }

/-- Services whose retrieval index is unavailable. -/
def svcIndexDown : Services :=
  { retrieve := fun _ => .error "index unavailable"
    analysisComplete := fun _ => .error "unreachable"
    prdComplete := fun _ _ => .error "unreachable"
    questionsComplete := fun _ _ => .error "unreachable" }

/-- Services whose clarification completion returns a one-element JSON
array. -/
def svcOneQuestion : Services :=
  { retrieve := fun _ => .ok []
    analysisComplete := fun _ => .ok intentW
    prdComplete := fun _ _ => .ok (.obj fullEntries)
    questionsComplete := fun _ _ => .ok (.arr [.str "Is offline mode required?"]) }

/-- Services whose extraction completion parses to an object with every
Intent field missing. -/
def svcEmptyIntent : Services :=
  { retrieve := fun _ => .ok []
    analysisComplete := fun _ => .ok (.obj [])
    prdComplete := fun _ _ => .ok (.obj fullEntries)
    questionsComplete := fun _ _ => .error "timeout" }

/-- Services whose extraction completion times out. -/
def svcAnalysisTimeout : Services :=
  { retrieve := fun _ => .ok docsW
    analysisComplete := fun _ => .error "Request timed out."
    prdComplete := fun _ _ => .error "unreachable"
    questionsComplete := fun _ _ => .error "unreachable" }

/-- A state as it stands when `prd_generator_agent` runs in the scenario. -/
def stateW : PRDAgentState :=
  { initial_state "I want to build a simple note-taking app" [] with
      retrieved_context := docsW, analysis_result := intentW,
      processing_stage := "analyzed" }

/-- An error-stage state. -/
def stateErr : PRDAgentState :=
  { initial_state "x" [] with
      processing_stage := "error", error_message := "Analysis failed: boom" }

/-- The envelope of the scenario run. -/
def envScenario : Envelope :=
  match process_user_input_for_prd svcScenario "I want to build a simple note-taking app"
      none with
  | .ok env => env
  | .error _ => ⟨false, .obj [], .arr [], .obj [], "", "starting"⟩

/-- The envelope of the one-question run. -/
def envOneQuestion : Envelope :=
  match process_user_input_for_prd svcOneQuestion "a task organizer" none with
  | .ok env => env
  | .error _ => ⟨false, .obj [], .arr [], .obj [], "", "starting"⟩

/-- The state after the analyzer in the scenario run. -/
def stateAnalyzed : PRDAgentState :=
  match input_analyzer_agent svcScenario
      (initial_state "I want to build a simple note-taking app" []) with
  | .ok s => s
  | .error _ => initial_state "I want to build a simple note-taking app" []

/-- Entries with an empty `requirements` list and a one-element `features`
list, for exercising the repair loop on both shapes. -/
def mixedEntries : List (String × Json) :=
  [("requirements", .arr []), ("features", .arr [.str "F1"])]

/-- The fresh initial state of the one-question and empty-intent runs. -/
def stateE0 : PRDAgentState := initial_state "a task organizer" []

/-! ### Claim theorems -/

/-- Claim C2, counterexample: with the retrieval index unavailable the
exception escapes `process_user_input_for_prd` (the call is outside the
`try` block), so no result envelope is returned at this input, contrary to
the claim that a retrieval failure ends the run in the ERROR state. -/
theorem retrieval_failure_escapes :
    process_user_input_for_prd svcIndexDown "hello" none = .error "index unavailable" ∧
    (process_user_input_for_prd svcIndexDown "hello" none).isOk = false :=
  ⟨rfl, rfl⟩

/-- Claim C2, amended: whenever the retrieval service succeeds the pipeline
returns a result envelope (completion-service failures included); but a
retrieval-service failure propagates out of `process_user_input_for_prd` as
the raised exception itself, not as an ERROR-stage envelope. -/
theorem envelope_return_and_retrieval_escape :
    (∀ (svc : Services) (ui : String) (hist : Option (List (List (String × String)))),
        (∀ q, (svc.retrieve q).isOk = true) →
        (process_user_input_for_prd svc ui hist).isOk = true) ∧
    (∀ (svc : Services) (ui : String) (hist : Option (List (List (String × String))))
        (e : String), svc.retrieve (context_query ui) = .error e →
        process_user_input_for_prd svc ui hist = .error e) := by
  constructor
  · intro svc ui hist hok
    rw [process_eq_pipelineResult]
    unfold pipelineResult
    cases hr : svc.retrieve (context_query ui) with
    | error e =>
        have hcontra := hok (context_query ui)
        rw [hr] at hcontra
        simp [Except.isOk, Except.toBool] at hcontra
    | ok docs =>
        cases ha : svc.analysisComplete ui with
        | error e => simp [Except.isOk, Except.toBool]
        | ok analysis =>
            cases hb : (svc.prdComplete analysis (mkContextText docs)).bind repairPrd with
            | error e => simp [hb, Except.isOk, Except.toBool]
            | ok prd => simp [hb, Except.isOk, Except.toBool]
  · intro svc ui hist e hr
    rw [process_eq_pipelineResult]
    simp [pipelineResult, hr]

/-- Witness for `envelope_return_and_retrieval_escape` at concrete
services. -/
theorem envelope_return_and_retrieval_escape_witness :
    (process_user_input_for_prd svcScenario "hello" none).isOk = true ∧
    process_user_input_for_prd svcIndexDown "bye" none = .error "index unavailable" :=
  ⟨envelope_return_and_retrieval_escape.1 svcScenario "hello" none (fun _ => rfl),
   envelope_return_and_retrieval_escape.2 svcIndexDown "bye" none "index unavailable" rfl⟩

/-- Claim C3, counterexample: a fully successful run returns
`success = true` with terminal stage `"generated"`; the code never produces
a `"questions_ready"` stage, so success is not equivalent to the terminal
stage being QUESTIONS_READY as claimed. -/
theorem success_with_stage_generated :
    ((process_user_input_for_prd svcScenario "I want to build a simple note-taking app"
        none).map (fun env => (env.success, env.processing_stage))) =
      .ok (true, "generated") ∧ "generated" ≠ "questions_ready" :=
  ⟨rfl, by decide⟩

/-- Claim C3, amended: `success` is true iff the terminal stage is
`"generated"` (the stage synthesis sets and clarification leaves in place);
it is false for `"starting"` and false for `"error"`. -/
theorem success_iff_stage_generated (svc : Services) (ui : String)
    (hist : Option (List (List (String × String)))) (env : Envelope)
    (h : process_user_input_for_prd svc ui hist = .ok env) :
    (env.success = true ↔ env.processing_stage = "generated") ∧
    (env.processing_stage = "starting" → env.success = false) ∧
    (env.processing_stage = "error" → env.success = false) := by
  rcases envelope_cases svc ui hist env h with ⟨e, rfl⟩ | ⟨a, e, rfl⟩ | ⟨p, a, rfl⟩ <;>
    simp

/-- Witness for `success_iff_stage_generated` at the scenario run. -/
theorem success_iff_stage_generated_witness :
    (envScenario.success = true ↔ envScenario.processing_stage = "generated") ∧
    (envScenario.processing_stage = "starting" → envScenario.success = false) ∧
    (envScenario.processing_stage = "error" → envScenario.success = false) :=
  success_iff_stage_generated svcScenario "I want to build a simple note-taking app" none
    envScenario rfl

/-- Claim C4, counterexample: when the clarification completion parses to a
one-element JSON array, the stored `clarifying_questions` list has length 1,
outside the claimed set of lengths, while the run still reports success. -/
theorem clarifying_questions_length_one :
    ((process_user_input_for_prd svcOneQuestion "a task organizer" none).map
        (fun env => (env.success, jsonArrLen env.clarifying_questions))) =
      .ok (true, some 1) ∧ ¬((1 : Nat) = 2 ∨ (1 : Nat) = 3) :=
  ⟨rfl, by decide⟩

/-- Claim C4, amended: on any clarification failure the list is silently
the fixed two-item default and the run still reports success; but on a
successful clarification call the parsed JSON value is stored unvalidated,
so its length is whatever was parsed, not confined to \x7b2, 3\x7d. -/
theorem clarifying_questions_behavior (svc : Services) (ui : String)
    (hist : Option (List (List (String × String)))) (env : Envelope)
    (h : process_user_input_for_prd svc ui hist = .ok env)
    (hs : env.success = true) :
    env.clarifying_questions = questionsValue svc ui env.analysis ∧
    (∀ a, (svc.questionsComplete ui a).isOk = false →
        questionsValue svc ui a = Json.arr (default_questions.map Json.str)) ∧
    default_questions.length = 2 := by
  rcases envelope_cases svc ui hist env h with ⟨e, rfl⟩ | ⟨a, e, rfl⟩ | ⟨p, a, rfl⟩
  · simp at hs
  · simp at hs
  · refine ⟨rfl, ?_, rfl⟩
    intro a' hq
    unfold questionsValue
    cases hqq : svc.questionsComplete ui a' with
    | ok q => rw [hqq] at hq; simp [Except.isOk, Except.toBool] at hq
    | error e => rfl

/-- Witness for `clarifying_questions_behavior` at the one-question run. -/
theorem clarifying_questions_behavior_witness :
    envOneQuestion.clarifying_questions =
      questionsValue svcOneQuestion "a task organizer" envOneQuestion.analysis ∧
    default_questions.length = 2 :=
  ⟨(clarifying_questions_behavior svcOneQuestion "a task organizer" none envOneQuestion
      rfl rfl).1,
   (clarifying_questions_behavior svcOneQuestion "a task organizer" none envOneQuestion
      rfl rfl).2.2⟩

/-- Claim C5, counterexample: extraction parses an object missing every
Intent field, yet the run succeeds and stores it verbatim — the stage
reaches `"generated"`, the analysis is the empty object, and the `features`
field is absent rather than defaulted to its empty form. -/
theorem empty_intent_accepted :
    ((process_user_input_for_prd svcEmptyIntent "a task organizer" none).map
        (fun env => (env.processing_stage, env.analysis,
          getVal env.analysis.objEntries "features"))) =
      .ok ("generated", .obj [], none) :=
  rfl

/-- Claim C5, amended: extraction fails (error stage, non-empty message)
exactly when the completion call raises or its response is not parseable
JSON; any successfully parsed JSON value — schema-conforming or not, fields
missing or not — is stored as the analysis verbatim, with no schema
validation and no defaulting of missing fields. -/
theorem extraction_parse_boundary (svc : Services) (s : PRDAgentState)
    (docs : List Document)
    (hr : svc.retrieve (context_query s.user_input) = .ok docs) :
    (∀ j, svc.analysisComplete s.user_input = .ok j →
        input_analyzer_agent svc s =
          .ok { s with retrieved_context := docs, analysis_result := j,
                       processing_stage := "analyzed" }) ∧
    (∀ e, svc.analysisComplete s.user_input = .error e →
        input_analyzer_agent svc s =
          .ok { s with retrieved_context := docs,
                       error_message := "Analysis failed: " ++ e,
                       processing_stage := "error" } ∧
        "Analysis failed: " ++ e ≠ "") := by
  constructor
  · intro j ha
    simp [input_analyzer_agent, hr, ha]
  · intro e ha
    refine ⟨?_, append_left_ne_empty _ _ (by decide)⟩
    simp [input_analyzer_agent, hr, ha]

/-- Witness for `extraction_parse_boundary`: the schema-free empty object is
accepted verbatim. -/
theorem extraction_parse_boundary_witness :
    input_analyzer_agent svcEmptyIntent stateE0 =
      .ok { stateE0 with retrieved_context := [], analysis_result := .obj [],
                         processing_stage := "analyzed" } :=
  (extraction_parse_boundary svcEmptyIntent stateE0 [] rfl).1 (.obj []) rfl

/-- Claim C6 (confirmed): when the extraction completion fails, the envelope
has `success = false`, stage `"error"`, the default empty document and empty
question list, the initial empty analysis, and a non-empty error message
naming the analysis stage. -/
theorem extraction_failure_envelope (svc : Services) (ui : String)
    (hist : Option (List (List (String × String)))) (docs : List Document) (e : String)
    (hr : svc.retrieve (context_query ui) = .ok docs)
    (ha : svc.analysisComplete ui = .error e) :
    process_user_input_for_prd svc ui hist =
      .ok ⟨false, .obj [], .arr [], .obj [], "Analysis failed: " ++ e, "error"⟩ ∧
    "Analysis failed: " ++ e ≠ "" := by
  constructor
  · rw [process_eq_pipelineResult]
    simp [pipelineResult, hr, ha]
  · exact append_left_ne_empty _ _ (by decide)

/-- Witness for `extraction_failure_envelope` at a timing-out extraction. -/
theorem extraction_failure_envelope_witness :
    process_user_input_for_prd svcAnalysisTimeout "build an app" none =
      .ok ⟨false, .obj [], .arr [], .obj [],
           "Analysis failed: " ++ "Request timed out.", "error"⟩ ∧
    "Analysis failed: " ++ "Request timed out." ≠ "" :=
  extraction_failure_envelope svcAnalysisTimeout "build an app" none docsW
    "Request timed out." rfl rfl

/-- Claim C10 (confirmed): the result envelope does not depend on the
conversation history (no pipeline stage reads it): two invocations with the
same user input and services but different histories, the omitted `none`
default included, return identical envelopes. -/
theorem envelope_independent_of_history (svc : Services) (ui : String)
    (h1 h2 : Option (List (List (String × String)))) :
    process_user_input_for_prd svc ui h1 = process_user_input_for_prd svc ui h2 := by
  rw [process_eq_pipelineResult, process_eq_pipelineResult]

/-- Claim C1, counterexample: in the specification scenario — synthesis
parses with exactly 1 `requirements` item — the successful envelope still
has exactly 1 item in `requirements`, not the claimed padding to 3. -/
theorem requirements_one_item_not_padded :
    ((process_user_input_for_prd svcScenario "I want to build a simple note-taking app"
        none).map (fun env => (env.success,
          (getVal env.prd_content.objEntries "requirements").bind jsonArrLen))) =
      .ok (true, some 1) ∧ (1 : Nat) ≠ 3 :=
  ⟨rfl, by decide⟩

/-- Claim C1, amended: after a successful synthesis parse the generated
document's four list fields are always present as non-empty lists; a field
parsed absent or as the empty list is replaced by canned defaults meeting
the specification minimum (3/3/3/2); but a non-empty parsed list passes
through unchanged, so a below-minimum non-empty list (for example a single
requirements item) is not padded. -/
theorem generated_document_list_fields (svc : Services) (s : PRDAgentState)
    (entries : List (String × Json))
    (hp : svc.prdComplete s.analysis_result (mkContextText s.retrieved_context) =
        .ok (.obj entries)) :
    (prd_generator_agent svc s).processing_stage = "generated" ∧
    ∀ field ∈ repairFields, ∃ elems,
      getVal (prd_generator_agent svc s).prd_content.objEntries field =
        some (.arr elems) ∧
      elems ≠ [] ∧
      (getVal entries field = none ∨ getVal entries field = some (.arr []) →
        minCardinality field ≤ elems.length) ∧
      (∀ y ys, getVal entries field = some (.arr (y :: ys)) → elems = y :: ys) := by
  obtain ⟨d, hd⟩ : ∃ d, repairPrd (.obj entries) = .ok d := ⟨_, rfl⟩
  have hagent : prd_generator_agent svc s =
      { s with prd_content := d, processing_stage := "generated" } := by
    rw [prd_generator_agent_spec, hp]
    simp [Except.bind, hd]
  refine ⟨by rw [hagent], ?_⟩
  intro field hf
  have hfield := getVal_repairPrd entries field hf
  rw [hd] at hfield
  simp only [Except.map, Except.ok.injEq] at hfield
  obtain ⟨elems, hrv, hne, hmin, hpass⟩ :=
    repairedValue_spec field hf ((getVal entries field).getD (.arr []))
  refine ⟨elems, ?_, hne, ?_, ?_⟩
  · rw [hagent]
    show getVal d.objEntries field = some (.arr elems)
    rw [hfield, hrv]
  · intro hcase
    rcases hcase with hnone | hempty
    · apply hmin; rw [hnone]; rfl
    · apply hmin; rw [hempty]; rfl
  · intro y ys hcons
    apply hpass; rw [hcons]; rfl

/-- Witness for `generated_document_list_fields` at the scenario state. -/
theorem generated_document_list_fields_witness :
    (prd_generator_agent svcScenario stateW).processing_stage = "generated" ∧
    ∃ elems, getVal (prd_generator_agent svcScenario stateW).prd_content.objEntries
        "requirements" = some (.arr elems) ∧ elems ≠ [] := by
  have h := generated_document_list_fields svcScenario stateW prdEntriesOneReq rfl
  obtain ⟨elems, he, hne, -, -⟩ := h.2 "requirements" (by decide)
  exact ⟨h.1, elems, he, hne⟩

/-- Claim C7 (confirmed): each stage either advances the stage forward in
the fixed order or jumps to `"error"` with a non-empty message; the
clarification stage changes neither; routing halts on `"error"`; and in
every returned envelope the message is non-empty exactly on `"error"`. -/
theorem stage_machine_invariants :
    (∀ (svc : Services) (s s' : PRDAgentState), input_analyzer_agent svc s = .ok s' →
        s.error_message = "" →
        (s'.processing_stage = "analyzed" ∧ s'.error_message = "") ∨
        (s'.processing_stage = "error" ∧ s'.error_message ≠ "")) ∧
    (∀ (svc : Services) (s : PRDAgentState), s.error_message = "" →
        ((prd_generator_agent svc s).processing_stage = "generated" ∧
         (prd_generator_agent svc s).error_message = "") ∨
        ((prd_generator_agent svc s).processing_stage = "error" ∧
         (prd_generator_agent svc s).error_message ≠ "")) ∧
    (∀ (svc : Services) (s : PRDAgentState),
        (clarification_agent svc s).processing_stage = s.processing_stage ∧
        (clarification_agent svc s).error_message = s.error_message) ∧
    (∀ s : PRDAgentState, s.processing_stage = "error" → determine_next_step s = "end") ∧
    (stageRank "starting" < stageRank "analyzed" ∧
     stageRank "analyzed" < stageRank "generated") ∧
    (∀ (svc : Services) (ui : String) (hist : Option (List (List (String × String))))
        (env : Envelope), process_user_input_for_prd svc ui hist = .ok env →
        (env.error_message ≠ "" ↔ env.processing_stage = "error")) := by
  refine ⟨?_, ?_, ?_, ?_, ⟨by decide, by decide⟩, ?_⟩
  · intro svc s s' h hmsg
    simp only [input_analyzer_agent] at h
    split at h
    · exact absurd h (by simp)
    · split at h
      · obtain rfl := Except.ok.inj h
        exact Or.inl ⟨rfl, hmsg⟩
      · obtain rfl := Except.ok.inj h
        exact Or.inr ⟨rfl, append_left_ne_empty _ _ (by decide)⟩
  · intro svc s hmsg
    rw [prd_generator_agent_spec]
    cases hb : (svc.prdComplete s.analysis_result (mkContextText s.retrieved_context)).bind
        repairPrd with
    | ok prd => exact Or.inl ⟨rfl, hmsg⟩
    | error e => exact Or.inr ⟨rfl, append_left_ne_empty _ _ (by decide)⟩
  · intro svc s
    unfold clarification_agent
    cases hq : svc.questionsComplete s.user_input s.analysis_result with
    | ok parsed => exact ⟨rfl, rfl⟩
    | error e => exact ⟨rfl, rfl⟩
  · intro s h
    simp [determine_next_step, h]
  · intro svc ui hist env h
    rcases envelope_cases svc ui hist env h with ⟨e, rfl⟩ | ⟨a, e, rfl⟩ | ⟨p, a, rfl⟩
    · exact ⟨fun _ => rfl, fun _ => append_left_ne_empty _ _ (by decide)⟩
    · exact ⟨fun _ => rfl, fun _ => append_left_ne_empty _ _ (by decide)⟩
    · refine ⟨fun hmsg => absurd rfl hmsg, fun hstage => ?_⟩
      simp at hstage

/-- Witness for `stage_machine_invariants` at concrete states and runs. -/
theorem stage_machine_invariants_witness :
    ((stateAnalyzed.processing_stage = "analyzed" ∧ stateAnalyzed.error_message = "") ∨
     (stateAnalyzed.processing_stage = "error" ∧ stateAnalyzed.error_message ≠ "")) ∧
    ((clarification_agent svcScenario stateW).processing_stage =
      stateW.processing_stage) ∧
    (determine_next_step stateErr = "end") ∧
    (envScenario.error_message ≠ "" ↔ envScenario.processing_stage = "error") := by
  refine ⟨?_, ?_, ?_, ?_⟩
  · exact stage_machine_invariants.1 svcScenario
      (initial_state "I want to build a simple note-taking app" []) stateAnalyzed rfl rfl
  · exact (stage_machine_invariants.2.2.1 svcScenario stateW).1
  · exact stage_machine_invariants.2.2.2.1 stateErr rfl
  · exact stage_machine_invariants.2.2.2.2.2 svcScenario
      "I want to build a simple note-taking app" none envScenario rfl

/-- A parsed document satisfying every field-presence, list-type and
minimum-cardinality invariant of the specification. -/
def docValidEntries (entries : List (String × Json)) : Prop :=
  (getVal entries "title").isSome ∧ (getVal entries "overview").isSome ∧
  (∃ x xs, getVal entries "objectives" = some (.arr (x :: xs)) ∧ 3 ≤ (x :: xs).length) ∧
  (∃ x xs, getVal entries "features" = some (.arr (x :: xs)) ∧ 3 ≤ (x :: xs).length) ∧
  (∃ x xs, getVal entries "requirements" = some (.arr (x :: xs)) ∧ 3 ≤ (x :: xs).length) ∧
  (∃ x xs, getVal entries "userStories" = some (.arr (x :: xs)) ∧ 2 ≤ (x :: xs).length)

/-- Claim C8 (confirmed): on an already-valid parsed document the repair
pass is a no-op, and running it twice equals running it once — no
double-padding. -/
theorem repair_pass_idempotent (entries : List (String × Json))
    (h : docValidEntries entries) :
    repairPrd (.obj entries) = .ok (.obj entries) ∧
    (repairPrd (.obj entries)).bind repairPrd = repairPrd (.obj entries) := by
  obtain ⟨ht, ho, ⟨xo, xso, hobj, -⟩, ⟨xf, xsf, hfea, -⟩, ⟨xr, xsr, hreq, -⟩,
    ⟨xu, xsu, hus, -⟩⟩ := h
  have h1 : repairPrd (.obj entries) = .ok (.obj entries) := by
    simp only [repairPrd]
    rw [setdefault_of_present _ "title" _ ht, setdefault_of_present _ "overview" _ ho,
        setdefault_of_present _ "objectives" _ (by rw [hobj]; rfl),
        setdefault_of_present _ "features" _ (by rw [hfea]; rfl),
        setdefault_of_present _ "requirements" _ (by rw [hreq]; rfl),
        setdefault_of_present _ "userStories" _ (by rw [hus]; rfl)]
    simp only [repairFields, List.foldl]
    rw [repairOne_of_nonempty _ _ _ _ hobj]
    rw [repairOne_of_nonempty _ _ _ _ hfea]
    rw [repairOne_of_nonempty _ _ _ _ hreq]
    rw [repairOne_of_nonempty _ _ _ _ hus]
  refine ⟨h1, ?_⟩
  rw [h1]
  simp [Except.bind, h1]

/-- Witness for `repair_pass_idempotent` at a concrete valid document. -/
theorem repair_pass_idempotent_witness :
    repairPrd (.obj fullEntries) = .ok (.obj fullEntries) ∧
    (repairPrd (.obj fullEntries)).bind repairPrd = repairPrd (.obj fullEntries) :=
  repair_pass_idempotent fullEntries
    ⟨rfl, rfl,
     ⟨.str "O1", [.str "O2", .str "O3"], rfl, by decide⟩,
     ⟨.str "F1", [.str "F2", .str "F3"], rfl, by decide⟩,
     ⟨.str "R1", [.str "R2", .str "R3"], rfl, by decide⟩,
     ⟨.str "U1", [.str "U2"], rfl, by decide⟩⟩

/-- Claim C9 (confirmed): the implemented repair fills a list field with the
complete fixed per-field default list exactly when the field is empty after
coercion, and passes any non-empty list through unchanged; the default lists
have 4 features, 3 objectives, 3 requirements and 2 user stories. -/
theorem repair_fills_only_empty_lists (entries : List (String × Json)) (field : String)
    (hf : field ∈ repairFields) :
    ((getVal entries field = some (.arr []) →
        (repairPrd (.obj entries)).map (fun d => getVal d.objEntries field) =
          .ok (some (.arr ((fieldDefaults field).map Json.str)))) ∧
     (∀ y ys, getVal entries field = some (.arr (y :: ys)) →
        (repairPrd (.obj entries)).map (fun d => getVal d.objEntries field) =
          .ok (some (.arr (y :: ys))))) ∧
    (fieldDefaults "features").length = 4 ∧ (fieldDefaults "objectives").length = 3 ∧
    (fieldDefaults "requirements").length = 3 ∧
    (fieldDefaults "userStories").length = 2 := by
  refine ⟨⟨?_, ?_⟩, by decide, by decide, by decide, by decide⟩
  · intro h
    have hfield := getVal_repairPrd entries field hf
    rw [h] at hfield
    simpa [repairedValue, Json.isArr, isEmptyList] using hfield
  · intro y ys h
    have hfield := getVal_repairPrd entries field hf
    rw [h] at hfield
    simpa [repairedValue, Json.isArr, isEmptyList] using hfield

/-- Witness for `repair_fills_only_empty_lists`: an empty `requirements`
list is replaced by the three canned defaults. -/
theorem repair_fills_only_empty_lists_witness :
    (repairPrd (.obj mixedEntries)).map (fun d => getVal d.objEntries "requirements") =
      .ok (some (.arr ((fieldDefaults "requirements").map Json.str))) ∧
    (fieldDefaults "requirements").length = 3 := by
  have h := repair_fills_only_empty_lists mixedEntries "requirements" (by decide)
  exact ⟨h.1.1 rfl, h.2.2.2.1⟩

end RagSystem
